import Mathlib

/-!
# Verification of the protomaps-leaflet tile render coordinator

Shallow embedding of `src/frontends/leaflet.ts` (the only source file of the
repository): the per-tile render pipeline `renderTile`, the tile lifecycle
operations (`createTile`, `rerenderTile`, `rerenderTiles`, `_removeTile`),
the click/pick cycle (`_onLayerClick`), the pointer projector (`_getPointer`)
and the priority delay computation.

Modelling conventions:
* JavaScript numbers appearing in discrete bookkeeping (tile coordinates,
  sizes, bounding boxes) are embedded as `ℤ`/`ℚ`; the transcendental pointer
  projection (`Math.sin`, `Math.log`, `Math.PI`) is embedded over `ℝ`.
* `renderTile` is an `async` method with four suspension points (the
  multi-source fetch barrier, the auxiliary-task barrier, the synchronous
  label-index `add` during which invalidation callbacks can re-enter the
  layer, and the priority-delay timer).  The values of the shared mutable
  fields `element.key` and `this.lastRequestedZ`, as observed when execution
  resumes at each of the four staleness gates, are supplied by a
  `RenderEnv`; the remaining inputs (settled fetch results, map attachment,
  canvas-context availability, layer configuration) are also captured there.
  The function returns a `RenderResult` recording every externally visible
  effect: the stages that ran, `console.error` logs, canvas mutation, the
  arguments of the `paint(...)` call, and whether `done()` was invoked.
* Host (Leaflet) effects that carry no data relevant to the claims — DOM
  class manipulation, the `tileunload` event, actual timer durations — are
  noted in comments but not given state.
-/

/-- Integer tile coordinate `(z, x, y)` (Leaflet `Coords`). -/
structure TileCoord where
  z : ℤ
  x : ℤ
  y : ℤ
deriving DecidableEq, Repr

/-- Per-source fetch payload (`PreparedTile` from `../view`): the data tile
that satisfied the request, its dimension and origin offset.  The vector
data itself is irrelevant to the claims and omitted. -/
structure PreparedTile where
  dataTile : TileCoord
  dim : ℚ
  originX : ℚ
  originY : ℚ
deriving DecidableEq, Repr

/-- A fetch rejection (`error` in the `getDisplayTile` handler); only its
`name` is inspected (`"AbortError"`) and the whole value is what gets
logged. -/
structure FetchErr where
  name : String
  msg : String
deriving DecidableEq, Repr

/-- Outcome of one source view's `getDisplayTile(coords)` promise once
settled. -/
abbrev FetchResult := Except FetchErr PreparedTile

instance : DecidableEq FetchResult := fun a b =>
  match a, b with
  | .ok x, .ok y =>
      if h : x = y then .isTrue (by rw [h]) else .isFalse (by simp [h])
  | .ok _, .error _ => .isFalse (by simp)
  | .error _, .ok _ => .isFalse (by simp)
  | .error x, .error y =>
      if h : x = y then .isTrue (by rw [h]) else .isFalse (by simp [h])

/-- One `console.error` emission inside `renderTile`. -/
inductive LogEntry
  | fetchError (e : FetchErr)
  | ctxError
deriving DecidableEq, Repr

/-- Pipeline stages of `renderTile` whose execution is observable. -/
inductive Stage
  | fetchBarrier
  | taskBarrier
  | labelAdd
  | labelGet
  | delayTimer
  | paintStage
  | debugOverlay
deriving DecidableEq, Repr

/-- Axis-aligned bounding box in the tile's local 256-unit space. -/
structure BBox where
  minX : ℚ
  minY : ℚ
  maxX : ℚ
  maxY : ℚ
deriving DecidableEq, Repr

/-- The `Pointer` record produced by `_getPointer`: local tile coordinates
`(x, y)`, tile grid coordinates `(tileX, tileY)` and global map coordinates
`(X, Y)`.  Parametrised by the coordinate field type: the projector itself
is embedded over `ℝ`, while the render pipeline's snapshot of
`this.pointer` uses `ℚ` so that runs stay decidable. -/
structure Pointer (α : Type) where
  x : α
  y : α
  tileX : ℤ
  tileY : ℤ
  X : α
  Y : α
deriving DecidableEq, Repr

/-- The values of the shared mutable fields `element.key` (a removed
element has `key === undefined`, hence `Option`) and `this.lastRequestedZ`
(undefined before the first render) as observed when execution resumes at
one staleness gate. -/
structure GateObs where
  elementKey : Option String
  lastRequestedZ : Option ℤ
deriving DecidableEq, Repr

/-- A staleness gate fires when `element.key !== key` or
`this.lastRequestedZ !== coords.z` (two consecutive early returns in the
source, folded into one disjunction). -/
abbrev staleGate (g : GateObs) (key : String) (z : ℤ) : Prop :=
  g.elementKey ≠ some key ∨ g.lastRequestedZ ≠ some z

/-- Everything `renderTile(coords, element, key, done)` reads from the
layer and from the outside world during one run. `gateA`–`gateD` are the
observations at the four staleness gates, in program order: after the
multi-source fetch barrier, after the auxiliary-task barrier, after the
label-index `add` (during which invalidation callbacks may re-enter), and
after the priority-delay timer. -/
structure RenderEnv where
  /-- Settled results of `views.getDisplayTile(coords)`, in view order,
  keyed by source name. -/
  fetchResults : List (String × FetchResult)
  gateA : GateObs
  gateB : GateObs
  gateC : GateObs
  /-- `this._map` is still set (the layer was not removed from the map). -/
  mapAttached : Bool
  gateD : GateObs
  /-- `element.getContext("2d")` returned a context. -/
  ctxOk : Bool
  /-- `this.tileSize = 256 * window.devicePixelRatio`. -/
  tileSize : ℚ
  backgroundColor : Option String
  debug : Option String
  xray : Bool
  /-- Opaque handle for `this.labelers.getIndex(coords.z)`. -/
  labelData : ℕ
  /-- Snapshot of `this.pointer`. -/
  pointer : Option (Pointer ℚ)
deriving DecidableEq, Repr

/-- The argument list of the external `paint(...)` call, plus the canvas
transform scale `this.tileSize / 256` set just before it. -/
structure PaintCall where
  zoom : ℤ
  tilemap : List (String × List PreparedTile)
  labels : Option ℕ
  bboxWithBuffer : BBox
  originX : ℚ
  originY : ℚ
  xrayArg : Bool
  debugColor : Option String
  pointer : Option (ℚ × ℚ)
  transformScale : ℚ
deriving DecidableEq, Repr

/-- Externally visible effects of one `renderTile` run. -/
structure RenderResult where
  /-- `this.lastRequestedZ = coords.z` executed at entry. -/
  lastRequestedZSet : ℤ
  /-- The `preparedTilemap` built from the settled fetches. -/
  tilemap : List (String × List PreparedTile)
  /-- `console.error` emissions, in order. -/
  logs : List LogEntry
  /-- Stages that were reached, in order. -/
  stages : List Stage
  /-- The target canvas was written to (`element.width/height` assignment
  and everything after it). -/
  canvasMutated : Bool
  /-- The `paint(...)` invocation, if reached. -/
  paintCall : Option PaintCall
  /-- `done()` was invoked. -/
  doneCalled : Bool
deriving DecidableEq, Repr

/-- `preparedTilemap` construction: each fulfilled response is bound to the
one-element array `[tileResponse.value]`; rejected responses contribute no
entry. -/
def buildTilemap (rs : List (String × FetchResult)) : List (String × List PreparedTile) :=
  rs.filterMap fun p =>
    match p.2 with
    | .ok v => some (p.1, [v])
    | .error _ => none

/-- `console.error` emissions of the tile-response loop: a rejection whose
`reason.name === "AbortError"` is silently dropped, every other rejection
is logged. -/
def fetchLogs (rs : List (String × FetchResult)) : List LogEntry :=
  rs.filterMap fun p =>
    match p.2 with
    | .ok _ => none
    | .error e => if e.name = "AbortError" then none else some (.fetchError e)

/-- The `paint(ctx, coords.z, preparedTilemap, this.xray ? null : labelData,
paintRules, bboxWithBuffer, origin, false, this.debug, pointer,
this.pickedFeatures)` argument block, including the pointer-in-tile
containment test against the unbuffered bbox. -/
def mkPaintCall (env : RenderEnv) (coords : TileCoord) : PaintCall :=
  let bbox : BBox :=
    ⟨256 * (coords.x : ℚ), 256 * (coords.y : ℚ),
     256 * ((coords.x : ℚ) + 1), 256 * ((coords.y : ℚ) + 1)⟩
  let buf : ℚ := 16
  let bboxWithBuffer : BBox :=
    ⟨256 * (coords.x : ℚ) - buf, 256 * (coords.y : ℚ) - buf,
     256 * ((coords.x : ℚ) + 1) + buf, 256 * ((coords.y : ℚ) + 1) + buf⟩
  let pointerArg : Option (ℚ × ℚ) :=
    match env.pointer with
    | some p =>
        if p.X ≥ bbox.minX ∧ p.X ≤ bbox.maxX ∧ p.Y ≤ bbox.maxY ∧ p.Y ≥ bbox.minY
        then some (p.x, p.y)
        else none
    | none => none
  { zoom := coords.z
    tilemap := buildTilemap env.fetchResults
    labels := if env.xray then none else some env.labelData
    bboxWithBuffer := bboxWithBuffer
    originX := 256 * (coords.x : ℚ)
    originY := 256 * (coords.y : ℚ)
    xrayArg := false
    debugColor := env.debug
    pointer := pointerArg
    transformScale := env.tileSize / 256 }

/-- `renderTile(coords, element, key, done)`.  Control flow follows the
source's early returns: fetch barrier → gate A → task barrier → gate B →
`labelers.add` → gate C → `getIndex` → `this._map` check → priority timer →
gate D → canvas sizing/clear → context check → `paint` → debug overlay →
`done()`. -/
def renderTile (env : RenderEnv) (coords : TileCoord) (key : String) : RenderResult :=
  let tilemap := buildTilemap env.fetchResults
  let logs := fetchLogs env.fetchResults
  if staleGate env.gateA key coords.z then
    ⟨coords.z, tilemap, logs, [.fetchBarrier], false, none, false⟩
  else if staleGate env.gateB key coords.z then
    ⟨coords.z, tilemap, logs, [.fetchBarrier, .taskBarrier], false, none, false⟩
  else if staleGate env.gateC key coords.z then
    ⟨coords.z, tilemap, logs, [.fetchBarrier, .taskBarrier, .labelAdd], false, none, false⟩
  else if !env.mapAttached then
    -- `if (!this._map) return;` — the layer was removed from the map.
    ⟨coords.z, tilemap, logs, [.fetchBarrier, .taskBarrier, .labelAdd, .labelGet],
      false, none, false⟩
  else if staleGate env.gateD key coords.z then
    ⟨coords.z, tilemap, logs,
      [.fetchBarrier, .taskBarrier, .labelAdd, .labelGet, .delayTimer], false, none, false⟩
  else if !env.ctxOk then
    -- `element.width/height` were already assigned (canvas reset), then
    -- `console.error("Failed to get Canvas context"); return;`
    ⟨coords.z, tilemap, logs ++ [.ctxError],
      [.fetchBarrier, .taskBarrier, .labelAdd, .labelGet, .delayTimer], true, none, false⟩
  else
    ⟨coords.z, tilemap, logs,
      [.fetchBarrier, .taskBarrier, .labelAdd, .labelGet, .delayTimer, .paintStage] ++
        (if env.debug.isSome then [.debugOverlay] else []),
      true, some (mkPaintCall env coords), true⟩

/-- C1: if the observation at any of the four suspension-point gates has
`element.key ≠ key` or `lastRequestedZ ≠ coords.z`, then the run never
mutates the target canvas, never calls `done`, never paints, and the
stages executed stop exactly at the failing gate (no later stage — label
retrieval, delay, paint, debug overlay — runs). -/
theorem C1_stale_gate_aborts (env : RenderEnv) (coords : TileCoord) (key : String)
    (h : staleGate env.gateA key coords.z ∨ staleGate env.gateB key coords.z ∨
         staleGate env.gateC key coords.z ∨ staleGate env.gateD key coords.z) :
    (renderTile env coords key).canvasMutated = false ∧
    (renderTile env coords key).doneCalled = false ∧
    (renderTile env coords key).paintCall = none ∧
    Stage.paintStage ∉ (renderTile env coords key).stages ∧
    Stage.debugOverlay ∉ (renderTile env coords key).stages ∧
    (staleGate env.gateA key coords.z →
      (renderTile env coords key).stages = [Stage.fetchBarrier]) ∧
    (¬ staleGate env.gateA key coords.z → staleGate env.gateB key coords.z →
      (renderTile env coords key).stages = [Stage.fetchBarrier, Stage.taskBarrier]) ∧
    (¬ staleGate env.gateA key coords.z → ¬ staleGate env.gateB key coords.z →
      staleGate env.gateC key coords.z →
      (renderTile env coords key).stages =
        [Stage.fetchBarrier, Stage.taskBarrier, Stage.labelAdd]) ∧
    (¬ staleGate env.gateA key coords.z → ¬ staleGate env.gateB key coords.z →
      ¬ staleGate env.gateC key coords.z → staleGate env.gateD key coords.z →
      Stage.delayTimer ∈ (renderTile env coords key).stages →
      (renderTile env coords key).stages =
        [Stage.fetchBarrier, Stage.taskBarrier, Stage.labelAdd, Stage.labelGet,
         Stage.delayTimer]) := by
  unfold renderTile
  split_ifs with h1 h2 h3 h4 h5 h6 <;> simp_all

/-- Witness for C1: a concrete run whose first gate observes a removed
element (`element.key === undefined`) aborts with no effects. -/
theorem C1_witness :
    (staleGate ⟨none, some 3⟩ "3:2:1" 3 ∨
      staleGate ⟨some "3:2:1", some 3⟩ "3:2:1" 3 ∨
      staleGate ⟨some "3:2:1", some 3⟩ "3:2:1" 3 ∨
      staleGate ⟨some "3:2:1", some 3⟩ "3:2:1" 3) ∧
    (renderTile
        ⟨[], ⟨none, some 3⟩, ⟨some "3:2:1", some 3⟩, ⟨some "3:2:1", some 3⟩, true,
          ⟨some "3:2:1", some 3⟩, true, 256, none, none, false, 0, none⟩
        ⟨3, 2, 1⟩ "3:2:1").canvasMutated = false ∧
    (renderTile
        ⟨[], ⟨none, some 3⟩, ⟨some "3:2:1", some 3⟩, ⟨some "3:2:1", some 3⟩, true,
          ⟨some "3:2:1", some 3⟩, true, 256, none, none, false, 0, none⟩
        ⟨3, 2, 1⟩ "3:2:1").doneCalled = false := by
  refine ⟨Or.inl (by decide), ?_, ?_⟩ <;>
  · have h := C1_stale_gate_aborts
      ⟨[], ⟨none, some 3⟩, ⟨some "3:2:1", some 3⟩, ⟨some "3:2:1", some 3⟩, true,
        ⟨some "3:2:1", some 3⟩, true, 256, none, none, false, 0, none⟩
      ⟨3, 2, 1⟩ "3:2:1" (Or.inl (by decide))
    tauto

/-! ## C2: per-source failure isolation -/

/-- In a list of keyed entries with pairwise-distinct keys, a key determines
its payload. -/
theorem eq_of_mem_of_nodup_fst {α β : Type} {l : List (α × β)}
    (h : (l.map Prod.fst).Nodup) {a : α} {b c : β}
    (h1 : (a, b) ∈ l) (h2 : (a, c) ∈ l) : b = c := by
  induction l with
  | nil => cases h1
  | cons hd tl ih =>
      simp only [List.map_cons, List.nodup_cons] at h
      rcases List.mem_cons.mp h1 with hb | hb <;> rcases List.mem_cons.mp h2 with hc | hc
      · rw [← hb] at hc; exact (congrArg Prod.snd hc).symm
      · exact absurd (List.mem_map.mpr ⟨(a, c), hc, by rw [← hb]⟩) h.1
      · exact absurd (List.mem_map.mpr ⟨(a, b), hb, by rw [← hc]⟩) h.1
      · exact ih h.2 hb hc

theorem mem_buildTilemap_of_ok {rs : List (String × FetchResult)} {name : String}
    {pt : PreparedTile} (h : (name, Except.ok pt) ∈ rs) :
    (name, [pt]) ∈ buildTilemap rs := by
  unfold buildTilemap
  exact List.mem_filterMap.mpr ⟨(name, Except.ok pt), h, rfl⟩

theorem of_mem_buildTilemap {rs : List (String × FetchResult)} {name : String}
    {l : List PreparedTile} (h : (name, l) ∈ buildTilemap rs) :
    ∃ pt, l = [pt] ∧ (name, Except.ok pt) ∈ rs := by
  unfold buildTilemap at h
  obtain ⟨⟨n, r⟩, hmem, heq⟩ := List.mem_filterMap.mp h
  cases r with
  | ok v =>
      simp only [Option.some.injEq, Prod.mk.injEq] at heq
      exact ⟨v, heq.2.symm, heq.1 ▸ hmem⟩
  | error e => simp at heq

theorem buildTilemap_fst_sublist (rs : List (String × FetchResult)) :
    ((buildTilemap rs).map Prod.fst).Sublist (rs.map Prod.fst) := by
  induction rs with
  | nil => simp [buildTilemap]
  | cons hd tl ih =>
      cases h : hd.2 with
      | ok v =>
          simpa [buildTilemap, List.filterMap_cons, h] using List.Sublist.cons₂ hd.1 ih
      | error e =>
          simpa [buildTilemap, List.filterMap_cons, h] using List.Sublist.cons hd.1 ih

theorem mem_fetchLogs_iff {rs : List (String × FetchResult)} {e : FetchErr} :
    LogEntry.fetchError e ∈ fetchLogs rs ↔
      (∃ name, (name, Except.error e) ∈ rs) ∧ e.name ≠ "AbortError" := by
  unfold fetchLogs
  constructor
  · intro h
    obtain ⟨⟨n, r⟩, hmem, heq⟩ := List.mem_filterMap.mp h
    cases r with
    | ok v => simp at heq
    | error e' =>
        by_cases hab : e'.name = "AbortError"
        · simp [hab] at heq
        · simp only [hab, if_false, Option.some.injEq, LogEntry.fetchError.injEq] at heq
          subst heq
          exact ⟨⟨n, hmem⟩, hab⟩
  · rintro ⟨⟨name, hmem⟩, hab⟩
    exact List.mem_filterMap.mpr ⟨(name, Except.error e), hmem, by simp [hab]⟩

/-- C2: the `preparedTilemap` holds exactly one entry per fulfilled source,
each a one-element array with that source's result, and no entry for a
rejected source; an `"AbortError"` rejection is never logged while any
other rejection is; and (all gates fresh, map attached, context available)
a rejected source does not prevent painting or the `done()` call. -/
theorem C2_rejected_source_isolated (env : RenderEnv) (coords : TileCoord) (key : String)
    (hnodup : (env.fetchResults.map Prod.fst).Nodup) :
    ((renderTile env coords key).tilemap.map Prod.fst).Nodup ∧
    (∀ name pt, (name, Except.ok pt) ∈ env.fetchResults →
      (name, [pt]) ∈ (renderTile env coords key).tilemap) ∧
    (∀ name l, (name, l) ∈ (renderTile env coords key).tilemap →
      ∃ pt, l = [pt] ∧ (name, Except.ok pt) ∈ env.fetchResults) ∧
    (∀ name e l, (name, Except.error e) ∈ env.fetchResults →
      (name, l) ∉ (renderTile env coords key).tilemap) ∧
    (∀ name e, (name, Except.error e) ∈ env.fetchResults →
      (LogEntry.fetchError e ∈ (renderTile env coords key).logs ↔
        e.name ≠ "AbortError")) ∧
    (¬ staleGate env.gateA key coords.z → ¬ staleGate env.gateB key coords.z →
      ¬ staleGate env.gateC key coords.z → ¬ staleGate env.gateD key coords.z →
      env.mapAttached = true → env.ctxOk = true →
      (renderTile env coords key).paintCall = some (mkPaintCall env coords) ∧
      (renderTile env coords key).doneCalled = true) := by
  have htile : (renderTile env coords key).tilemap = buildTilemap env.fetchResults := by
    unfold renderTile; split_ifs <;> rfl
  have hlogs : ∀ e : FetchErr,
      (LogEntry.fetchError e ∈ (renderTile env coords key).logs ↔
        LogEntry.fetchError e ∈ fetchLogs env.fetchResults) := by
    intro e
    unfold renderTile
    split_ifs <;> simp
  refine ⟨?_, ?_, ?_, ?_, ?_, ?_⟩
  · rw [htile]
    exact hnodup.sublist (buildTilemap_fst_sublist env.fetchResults)
  · intro name pt h
    rw [htile]; exact mem_buildTilemap_of_ok h
  · intro name l h
    rw [htile] at h; exact of_mem_buildTilemap h
  · intro name e l herr hmem
    rw [htile] at hmem
    obtain ⟨pt, -, hok⟩ := of_mem_buildTilemap hmem
    exact absurd (eq_of_mem_of_nodup_fst hnodup hok herr) (by simp)
  · intro name e herr
    rw [hlogs e, mem_fetchLogs_iff]
    exact ⟨fun h => h.2, fun h => ⟨⟨name, herr⟩, h⟩⟩
  · intro hA hB hC hD hmap hctx
    unfold renderTile
    split_ifs <;> simp_all

/-- Sample fulfilled payload for witnesses: a source tile for `(3, 2, 1)`. -/
def ptA : PreparedTile := ⟨⟨3, 2, 1⟩, 256, 512, 256⟩

/-- Sample non-`AbortError` rejection for witnesses. -/
def errNet : FetchErr := ⟨"NetworkError", "fetch failed"⟩

/-- Witness environment: two sources, `"a"` fulfilled and `"b"` rejected
with a genuine error; all staleness gates fresh for key `"k"` at zoom 3;
map attached and drawing context available. -/
def envC2 : RenderEnv :=
  ⟨[("a", .ok ptA), ("b", .error errNet)],
   ⟨some "k", some 3⟩, ⟨some "k", some 3⟩, ⟨some "k", some 3⟩, true,
   ⟨some "k", some 3⟩, true, 256, none, none, false, 0, none⟩

/-- Witness for C2: with one fulfilled and one rejected source, the
tilemap holds exactly the fulfilled entry and the render still paints and
signals completion. -/
theorem C2_witness :
    (envC2.fetchResults.map Prod.fst).Nodup ∧
    ("a", [ptA]) ∈ (renderTile envC2 ⟨3, 2, 1⟩ "k").tilemap ∧
    (renderTile envC2 ⟨3, 2, 1⟩ "k").paintCall = some (mkPaintCall envC2 ⟨3, 2, 1⟩) ∧
    (renderTile envC2 ⟨3, 2, 1⟩ "k").doneCalled = true := by
  have h := C2_rejected_source_isolated envC2 ⟨3, 2, 1⟩ "k" (by decide)
  have hdone := h.2.2.2.2.2 (by decide) (by decide) (by decide) (by decide) rfl rfl
  exact ⟨by decide, h.2.1 "a" ptA (by decide), hdone.1, hdone.2⟩

/-! ## C7: the buffered bounding box handed to `paint` -/

/-- C7: every run that reaches `paint` passes a bounding box spanning the
tile's local 256-unit extent with a symmetric 16-unit buffer, the tile
origin `(256·x, 256·y)`, and has set the canvas transform scale to
`tileSize / 256` (the device pixel ratio, since
`tileSize = 256 · devicePixelRatio`). -/
theorem C7_paint_bbox (env : RenderEnv) (coords : TileCoord) (key : String) (pc : PaintCall)
    (h : (renderTile env coords key).paintCall = some pc) :
    pc.bboxWithBuffer =
      ⟨256 * (coords.x : ℚ) - 16, 256 * (coords.y : ℚ) - 16,
       256 * ((coords.x : ℚ) + 1) + 16, 256 * ((coords.y : ℚ) + 1) + 16⟩ ∧
    pc.originX = 256 * (coords.x : ℚ) ∧
    pc.originY = 256 * (coords.y : ℚ) ∧
    pc.transformScale = env.tileSize / 256 ∧
    ∀ dpr : ℚ, env.tileSize = 256 * dpr → pc.transformScale = dpr := by
  have hscale : ∀ dpr : ℚ, env.tileSize = 256 * dpr → env.tileSize / 256 = dpr := by
    intro dpr hd
    rw [hd, mul_comm]
    exact mul_div_cancel_right₀ dpr (by norm_num)
  unfold renderTile at h
  split_ifs at h <;> simp at h <;>
    (subst h; exact ⟨rfl, rfl, rfl, rfl, hscale⟩)

/-- Witness for C7: a concrete run that paints, with the transform scale
as specified. -/
theorem C7_witness :
    (renderTile envC2 ⟨3, 2, 1⟩ "k").paintCall = some (mkPaintCall envC2 ⟨3, 2, 1⟩) ∧
    (mkPaintCall envC2 ⟨3, 2, 1⟩).transformScale = envC2.tileSize / 256 :=
  ⟨rfl,
   (C7_paint_bbox envC2 ⟨3, 2, 1⟩ "k" (mkPaintCall envC2 ⟨3, 2, 1⟩) rfl).2.2.2.1⟩

/-! ## C6: `_removeTile` and in-flight renders -/

/-- The canvas element tracked for one tile slot (`KeyedHtmlCanvasElement`
plus the `removed` marker set by `_removeTile`). -/
structure TileElement where
  key : Option String
  removed : Bool
  width : ℚ
  height : ℚ
deriving DecidableEq, Repr

/-- One `this._tiles` entry: the element and the (unwrapped) coordinate it
was created for (the host's key↔coordinate association). -/
structure TrackedTile where
  el : TileElement
  coords : TileCoord
deriving DecidableEq, Repr

/-- `this._tiles`, keyed by tile key (keys are unique in the host's
object). -/
structure TilesState where
  tiles : List (String × TrackedTile)
deriving DecidableEq, Repr

/-- `_removeTile(key)`: on a tracked tile, mark the element `removed`, set
`el.key = undefined`, zero its size, and delete the tracking entry.  The
DOM-detach calls and the `tileunload` event carry no modelled state.
Returns the updated tracking map and the mutated element (shared by
reference with any in-flight render). -/
def _removeTile (st : TilesState) (key : String) : TilesState × Option TileElement :=
  match st.tiles.lookup key with
  | none => (st, none)
  | some tr =>
      let el : TileElement := { key := none, removed := true, width := 0, height := 0 }
      (⟨st.tiles.filter (fun p => p.1 != key)⟩, some el)

theorem lookup_filter_ne {β : Type} (l : List (String × β)) (key : String) :
    (l.filter (fun p => p.1 != key)).lookup key = none := by
  induction l with
  | nil => rfl
  | cons hd tl ih =>
      by_cases h : hd.1 = key
      · simpa [List.filter_cons, h] using ih
      · simp only [List.filter_cons, bne_iff_ne, ne_eq, h, not_false_eq_true, if_true,
          List.lookup]
        have hb : (key == hd.1) = false := by simpa [beq_iff_eq] using Ne.symm h
        rw [hb]
        exact ih

/-- C6: `_removeTile` on a tracked key marks the element removed, clears
its key, and deletes it from tracking; consequently any in-flight
`renderTile` whose next gate observes the cleared `element.key` (it reads
`undefined ≠ key`) aborts without painting and without `done` — in
particular a `createTile` immediately followed by `_removeTile` before the
first suspension resolves never paints and never signals readiness. -/
theorem C6_removeTile_stale (st : TilesState) (key : String) (tr : TrackedTile)
    (htracked : st.tiles.lookup key = some tr) :
    (∃ el, (_removeTile st key).2 = some el ∧
      el.removed = true ∧ el.key = none ∧ el.width = 0 ∧ el.height = 0) ∧
    (_removeTile st key).1.tiles.lookup key = none ∧
    (∀ env coords k,
      env.gateA.elementKey = none ∨ env.gateB.elementKey = none ∨
        env.gateC.elementKey = none ∨ env.gateD.elementKey = none →
      (renderTile env coords k).canvasMutated = false ∧
      (renderTile env coords k).doneCalled = false ∧
      (renderTile env coords k).paintCall = none) := by
  refine ⟨?_, ?_, ?_⟩
  · unfold _removeTile
    rw [htracked]
    exact ⟨_, rfl, rfl, rfl, rfl, rfl⟩
  · unfold _removeTile
    rw [htracked]
    exact lookup_filter_ne st.tiles key
  · intro env coords k hgate
    have hstale : ∀ g : GateObs, g.elementKey = none → staleGate g k coords.z :=
      fun g hg => Or.inl (by simp [hg])
    unfold renderTile
    split_ifs with h1 h2 h3 h4 h5 h6 <;>
      first
        | exact ⟨rfl, rfl, rfl⟩
        | (exfalso
           rcases hgate with hg | hg | hg | hg <;>
             simp_all [staleGate, hstale])

/-- Witness tracking state: one tile at key `"2:1:3"`. -/
def tilesSt1 : TilesState :=
  ⟨[("2:1:3", ⟨⟨some "2:1:3", false, 256, 256⟩, ⟨3, 2, 1⟩⟩)]⟩

/-- Witness for C6: removing the only tracked tile clears its tracking
entry. -/
theorem C6_witness :
    tilesSt1.tiles.lookup "2:1:3" =
      some ⟨⟨some "2:1:3", false, 256, 256⟩, ⟨3, 2, 1⟩⟩ ∧
    (_removeTile tilesSt1 "2:1:3").1.tiles.lookup "2:1:3" = none :=
  ⟨by decide,
   (C6_removeTile_stale tilesSt1 "2:1:3" ⟨⟨some "2:1:3", false, 256, 256⟩, ⟨3, 2, 1⟩⟩
      (by decide)).2.1⟩

/-! ## C8: lifecycle callbacks (`createTile`, `rerenderTile`, `rerenderTiles`) -/

/-- The `done` callback passed to `renderTile`: `createTile` passes
`() => showTile(undefined, element)` (the host's tile-ready callback),
every other caller omits the argument and gets the default no-op
`() => {}`. -/
inductive DoneCb
  | noop
  | showTile
deriving DecidableEq, Repr

/-- Whether invoking the callback signals tile readiness to the host. -/
def signalsReadiness : DoneCb → Bool
  | .noop => false
  | .showTile => true

/-- One `renderTile(coords, element, key, done)` invocation issued by the
lifecycle layer. -/
structure RenderCall where
  coords : TileCoord
  key : String
  done : DoneCb
deriving DecidableEq, Repr

/-- Modelled from the spec: the host's tile-coordinate→GenerationKey
mapping (`this._tileCoordsToKey`, Leaflet `GridLayer`), which encodes the
coordinate as `"x:y:z"`; the source file only calls it. -/
def tileCoordsToKey (c : TileCoord) : String :=
  toString c.x ++ ":" ++ toString c.y ++ ":" ++ toString c.z

/-- `createTile(coords, showTile)`: create a fresh canvas element, tag it
with the key for `coords`, and start a render whose completion callback
invokes `showTile(undefined, element)`. -/
def createTile (coords : TileCoord) : TileElement × RenderCall :=
  let key := tileCoordsToKey coords
  (⟨some key, false, 0, 0⟩, ⟨coords, key, .showTile⟩)

/-- `rerenderTile(key)`: re-invoke `renderTile` (default `done`) for every
tracked tile whose wrapped coordinate maps to `key`.  `_wrapCoords` is a
host function, passed in as `wrap`. -/
def rerenderTile (st : TilesState) (wrap : TileCoord → TileCoord) (key : String) :
    List RenderCall :=
  st.tiles.filterMap fun p =>
    let wrapped := wrap p.2.coords
    if tileCoordsToKey wrapped = key then some ⟨wrapped, key, .noop⟩ else none

/-- `rerenderTiles()`: re-invoke `renderTile` (default `done`) for every
tracked tile. -/
def rerenderTiles (st : TilesState) (wrap : TileCoord → TileCoord) : List RenderCall :=
  st.tiles.map fun p =>
    let wrapped := wrap p.2.coords
    ⟨wrapped, tileCoordsToKey wrapped, .noop⟩

/-- C8: `createTile` tags the new element with the key derived from the
coordinate and renders with the readiness-signalling callback, which fires
only when the run completes (and completion implies a paint happened);
`rerenderTile` and `rerenderTiles` always pass the default no-op callback,
which never signals readiness. -/
theorem C8_done_callbacks (coords : TileCoord) (st : TilesState)
    (wrap : TileCoord → TileCoord) (key : String) (env : RenderEnv) (k : String) :
    (createTile coords).1.key = some (tileCoordsToKey coords) ∧
    (createTile coords).2.key = tileCoordsToKey coords ∧
    (createTile coords).2.done = DoneCb.showTile ∧
    signalsReadiness (createTile coords).2.done = true ∧
    (∀ c ∈ rerenderTile st wrap key, c.done = DoneCb.noop) ∧
    (∀ c ∈ rerenderTiles st wrap, c.done = DoneCb.noop) ∧
    signalsReadiness DoneCb.noop = false ∧
    ((renderTile env coords k).doneCalled = true →
      (renderTile env coords k).paintCall.isSome = true) := by
  refine ⟨rfl, rfl, rfl, rfl, ?_, ?_, rfl, ?_⟩
  · intro c hc
    obtain ⟨p, -, hp⟩ := List.mem_filterMap.mp hc
    dsimp only at hp
    split_ifs at hp
    simp only [Option.some.injEq] at hp
    rw [← hp]
  · intro c hc
    obtain ⟨p, -, hp⟩ := List.mem_map.mp hc
    rw [← hp]
  · intro hdone
    unfold renderTile at hdone ⊢
    split_ifs at hdone ⊢ <;> simp_all

/-- Witness for C8: a completing run has painted; the created call for the
same coordinate carries the readiness callback. -/
theorem C8_witness :
    (createTile ⟨3, 2, 1⟩).2.done = DoneCb.showTile ∧
    (renderTile envC2 ⟨3, 2, 1⟩ "k").doneCalled = true ∧
    (renderTile envC2 ⟨3, 2, 1⟩ "k").paintCall.isSome = true :=
  ⟨(C8_done_callbacks ⟨3, 2, 1⟩ tilesSt1 id "2:1:3" envC2 "k").2.2.1, by decide,
   (C8_done_callbacks ⟨3, 2, 1⟩ tilesSt1 id "2:1:3" envC2 "k").2.2.2.2.2.2.2 (by decide)⟩

/-! ## C3: the click/pick cycle (`_onLayerClick`)

The layer-wide pick state.  The `Pointer` payload computed by
`_getPointer` is analysed separately (see the projector section); here
only its presence and which click produced it matter, so `pointer` stores
the identifier of the originating click event.  `pickedFeatures` holds
feature identifiers pushed by `paint` during the redraws; `timers` holds
the pending `setTimeout` deadlines (absolute ms, click time + 1000) tagged
with the scheduling click's event id — the source never calls
`clearTimeout`; `fired` records `this.fire('click', {...event, feature})`
emissions as (event id, feature id); `redraws` counts `this.redraw()`
calls (the host redraws every visible tile). -/

structure ClickSt where
  pointer : Option ℕ
  pickedFeatures : List ℕ
  timers : List (ℕ × ℕ)
  fired : List (ℕ × ℕ)
  redraws : ℕ
deriving DecidableEq, Repr

/-- `_onLayerClick(event)` at absolute time `t`: set `this.pointer` from
the event, reset `this.pickedFeatures = []`, call `this.redraw()`, and
schedule a 1000 ms timeout.  The pending timers of earlier clicks are left
untouched. -/
def _onLayerClick (t evId : ℕ) (s : ClickSt) : ClickSt :=
  { pointer := some evId
    pickedFeatures := []
    timers := s.timers ++ [(t + 1000, evId)]
    fired := s.fired
    redraws := s.redraws + 1 }

/-- The body of the `setTimeout` callback scheduled by `_onLayerClick`
(running when the deadline `tm.1` of the timer tagged `tm.2` elapses): if
`this.pickedFeatures` is non-empty, fire a `click` event assembling the
original event with `this.pickedFeatures[0].feature`; in any case set
`this.pointer = null`. -/
def clickTimerFire (tm : ℕ × ℕ) (s : ClickSt) : ClickSt :=
  { pointer := none
    pickedFeatures := s.pickedFeatures
    timers := s.timers.erase tm
    fired :=
      match s.pickedFeatures with
      | [] => s.fired
      | f :: _ => s.fired ++ [(tm.2, f)]
    redraws := s.redraws }

/-- `paint` appending hits to the shared `this.pickedFeatures` accumulator
during a redraw. -/
def addPickedFeatures (fs : List ℕ) (s : ClickSt) : ClickSt :=
  { s with pickedFeatures := s.pickedFeatures ++ fs }

/-- The pick state before any click. -/
def clickS0 : ClickSt := ⟨none, [], [], [], 0⟩

/-- Counterexample to C3: a click at t=0 followed by a click at t=300.
After the second click two timeout windows are pending — the first click's
timer was never cancelled — and when the first window elapses at t=1000
the pointer is already cleared, 700 ms into the second click's supposedly
restarted 1000 ms window (which would end at t=1300). -/
theorem C3_counterexample :
    (_onLayerClick 300 2 (_onLayerClick 0 1 clickS0)).timers = [(1000, 1), (1300, 2)] ∧
    (_onLayerClick 300 2 (_onLayerClick 0 1 clickS0)).timers.length = 2 ∧
    (_onLayerClick 300 2 (_onLayerClick 0 1 clickS0)).pointer = some 2 ∧
    (clickTimerFire (1000, 1) (_onLayerClick 300 2 (_onLayerClick 0 1 clickS0))).pointer
      = none ∧
    (clickTimerFire (1000, 1) (_onLayerClick 300 2 (_onLayerClick 0 1 clickS0))).timers
      = [(1300, 2)] := by
  decide

/-- C3 (amended): every click sets the pointer from the event, resets the
picked-feature accumulator, triggers a redraw of all visible tiles, and
schedules its own fixed 1000 ms timeout *without cancelling pending ones*;
when any scheduled timeout fires, a click event carrying the first picked
feature is emitted iff the accumulator is non-empty, and the pointer is
cleared regardless.  A new click while a window is pending therefore
restarts the accumulator but not the window: the earlier click's timer
still fires at its own deadline and clears the pointer then. -/
theorem C3_click_cycle (t evId : ℕ) (s : ClickSt) (tm : ℕ × ℕ) :
    (_onLayerClick t evId s).pointer = some evId ∧
    (_onLayerClick t evId s).pickedFeatures = [] ∧
    (_onLayerClick t evId s).redraws = s.redraws + 1 ∧
    (_onLayerClick t evId s).timers = s.timers ++ [(t + 1000, evId)] ∧
    (_onLayerClick t evId s).fired = s.fired ∧
    (clickTimerFire tm s).pointer = none ∧
    (s.pickedFeatures = [] → (clickTimerFire tm s).fired = s.fired) ∧
    (∀ f rest, s.pickedFeatures = f :: rest →
      (clickTimerFire tm s).fired = s.fired ++ [(tm.2, f)]) := by
  refine ⟨rfl, rfl, rfl, rfl, rfl, rfl, ?_, ?_⟩
  · intro h
    simp [clickTimerFire, h]
  · intro f rest h
    simp [clickTimerFire, h]

/-- Witness for C3 (amended): a timer firing over a non-empty accumulator
emits a click event with the first picked feature. -/
theorem C3_witness :
    (clickTimerFire (1000, 1) ⟨some 1, [7, 9], [(1000, 1)], [], 1⟩).fired = [(1, 7)] :=
  (C3_click_cycle 0 1 ⟨some 1, [7, 9], [(1000, 1)], [], 1⟩ (1000, 1)).2.2.2.2.2.2.2
    7 [9] rfl

/-! ## C9: the `tileDelay` constructor option -/

/-- The constructor options relevant to the delay factor
(`LeafletLayerOptions.tileDelay`, `undefined` as `none`). -/
structure LayerOptions where
  tileDelay : Option ℚ
deriving DecidableEq, Repr

/-- JavaScript `a || b` on an optional number: `undefined` and `0` (the
falsy number) both yield the default. -/
def jsOrNumber (v : Option ℚ) (dflt : ℚ) : ℚ :=
  match v with
  | none => dflt
  | some x => if x = 0 then dflt else x

/-- `this.tileDelay = options.tileDelay || 3;` in the constructor. -/
def constructedTileDelay (o : LayerOptions) : ℚ :=
  jsOrNumber o.tileDelay 3

/-- C9: a constructor option `tileDelay: 0` yields the unconfigured
default 3 (so an explicitly-zero per-unit delay cannot be configured),
exactly as when `tileDelay` is absent; a non-zero value is kept. -/
theorem C9_zero_tileDelay_coerced :
    constructedTileDelay ⟨some 0⟩ = 3 ∧
    constructedTileDelay ⟨none⟩ = 3 ∧
    constructedTileDelay ⟨some 5⟩ = 5 := by
  decide

/-! ## C4: the priority delay

Real-valued: the source computes with JavaScript floats; the embedding
uses `ℝ`, the standard idealisation for the claims at issue (sign,
monotonicity, zero at zero). -/

/-- Modelled from the spec: Leaflet's `Point#distanceTo` (the host
viewport/tile-range abstraction, not part of this repository's source),
Euclidean distance. -/
noncomputable def distanceTo (p q : ℝ × ℝ) : ℝ :=
  Real.sqrt ((q.1 - p.1) ^ 2 + (q.2 - p.2) ^ 2)

/-- `const priority = coords.distanceTo(tileCenter) * this.tileDelay;` -/
noncomputable def tilePriority (coords tileCenter : ℝ × ℝ) (tileDelay : ℝ) : ℝ :=
  distanceTo coords tileCenter * tileDelay

/-- C4: the delay awaited before painting equals the Euclidean grid
distance from the tile coordinate to the tile-range center times the
configured delay factor; for a non-negative factor it is non-negative,
monotone non-decreasing in that distance, and zero at distance zero. -/
theorem C4_priority_delay (c center : ℝ × ℝ) (d : ℝ) (hd : 0 ≤ d) :
    tilePriority c center d = distanceTo c center * d ∧
    0 ≤ tilePriority c center d ∧
    (∀ c' : ℝ × ℝ, distanceTo c center ≤ distanceTo c' center →
      tilePriority c center d ≤ tilePriority c' center d) ∧
    (distanceTo c center = 0 → tilePriority c center d = 0) ∧
    distanceTo c c = 0 := by
  refine ⟨rfl, mul_nonneg (Real.sqrt_nonneg _) hd,
    fun c' h => mul_le_mul_of_nonneg_right h hd, fun h => ?_, ?_⟩
  · unfold tilePriority
    rw [h, zero_mul]
  · unfold distanceTo
    simp

/-- Witness for C4: at the tile-range center with the default factor 3,
the delay is zero (and non-negative). -/
theorem C4_witness :
    (0 : ℝ) ≤ 3 ∧ 0 ≤ tilePriority (0, 0) (0, 0) 3 ∧
    tilePriority (0, 0) (0, 0) 3 = 0 := by
  have h := C4_priority_delay (0, 0) (0, 0) 3 (by norm_num)
  exact ⟨by norm_num, h.2.1, h.2.2.2.1 h.2.2.2.2⟩

/-! ## C5 and C10: the pointer projector (`_getPointer`) -/

noncomputable def R : ℝ := 6378137

noncomputable def MAX_LATITUDE : ℝ := 85.0511287798

noncomputable def MAXCOORD : ℝ := R * Real.pi

/-- The latitude clamp inside `project`. -/
noncomputable def constrainedLat (lat : ℝ) : ℝ :=
  max (min MAX_LATITUDE lat) (-MAX_LATITUDE)

/-- The local spherical web-Mercator `project` closure (input
`[lat, lng]`, `d = Math.PI / 180`). -/
noncomputable def project (lat lng : ℝ) : ℝ × ℝ :=
  (R * lng * (Real.pi / 180),
   R * Real.log ((1 + Real.sin (constrainedLat lat * (Real.pi / 180))) /
       (1 - Real.sin (constrainedLat lat * (Real.pi / 180)))) / 2)

/-- The `normalized` point before the wrap fix-up. -/
noncomputable def normalizedRaw (lat lng : ℝ) : ℝ × ℝ :=
  (((project lat lng).1 + MAXCOORD) / (MAXCOORD * 2),
   1 - ((project lat lng).2 + MAXCOORD) / (MAXCOORD * 2))

/-- The wrap fix-up: `if (normalized.x > 1) normalized.x -= floor(normalized.x)`
— applied only when the raw value exceeds 1. -/
noncomputable def normalizedX (lat lng : ℝ) : ℝ :=
  if (normalizedRaw lat lng).1 > 1
  then (normalizedRaw lat lng).1 - ⌊(normalizedRaw lat lng).1⌋
  else (normalizedRaw lat lng).1

/-- `_getPointer(event)`: scale the normalized point by
`1 << this._map.getZoom()`, split into integer tile coordinates and
fractional local pixel coordinates scaled by `this.tileSize`, and derive
global coordinates. -/
noncomputable def _getPointer (lat lng : ℝ) (zoom : ℕ) (tileSize : ℝ) : Pointer ℝ :=
  let onZoomX := normalizedX lat lng * 2 ^ zoom
  let onZoomY := (normalizedRaw lat lng).2 * 2 ^ zoom
  let tileX := ⌊onZoomX⌋
  let tileY := ⌊onZoomY⌋
  let x := (onZoomX - tileX) * tileSize
  let y := (onZoomY - tileY) * tileSize
  ⟨x, y, tileX, tileY, tileX * tileSize + x, tileY * tileSize + y⟩

/-- The pre-wrap normalized x-coordinate is an affine function of the
longitude alone: `lng / 360 + 1 / 2`. -/
theorem normalizedRaw_fst (lat lng : ℝ) :
    (normalizedRaw lat lng).1 = lng / 360 + 1 / 2 := by
  unfold normalizedRaw project MAXCOORD R
  have hπ : Real.pi ≠ 0 := Real.pi_ne_zero
  field_simp
  ring

/-- Counterexample to C5: the projector does not wrap the longitude axis
into [0,1).  A click at longitude 180° produces normalized x exactly 1
(outside [0,1), since the fix-up only fires for values strictly greater
than 1), and a click at longitude −190° produces the negative normalized
x −1/36 — unwrapped — whence tile-grid x-index −1 at zoom 0. -/
theorem C5_counterexample :
    normalizedX 0 180 = 1 ∧
    normalizedX 0 (-190) = -(1 / 36) ∧
    (_getPointer 0 (-190) 0 1).tileX = -1 := by
  have h180 : (normalizedRaw 0 180).1 = 1 := by rw [normalizedRaw_fst]; norm_num
  have h190 : (normalizedRaw 0 (-190)).1 = -(1 / 36) := by rw [normalizedRaw_fst]; norm_num
  have hx180 : normalizedX 0 180 = 1 := by
    unfold normalizedX
    rw [h180]
    norm_num
  have hx190 : normalizedX 0 (-190) = -(1 / 36) := by
    unfold normalizedX
    rw [h190]
    norm_num
  refine ⟨hx180, hx190, ?_⟩
  show ⌊normalizedX 0 (-190) * 2 ^ (0 : ℕ)⌋ = -1
  rw [hx190]
  rw [show ((-(1 / 36) : ℝ) * 2 ^ (0 : ℕ)) = -(1 / 36) by norm_num]
  rw [Int.floor_eq_iff]
  norm_num

/-- C5 (amended): `_getPointer` maps the click's geographic coordinates
through the spherical web-Mercator projection (earth radius 6378137,
latitude clamped to ±85.0511287798°) onto the normalized plane, wraps the
x-axis into [0,1) *only when the raw value exceeds 1* (x = 1 at longitude
180° and negative values below longitude −180° are left unwrapped), then
scales by 2^zoom and splits into integer tile-grid coordinates plus
fractional local pixel coordinates scaled by the tile size. -/
theorem C5_projector (lat lng : ℝ) (zoom : ℕ) (tileSize : ℝ) :
    (MAX_LATITUDE ≤ lat →
      _getPointer lat lng zoom tileSize = _getPointer MAX_LATITUDE lng zoom tileSize) ∧
    (lat ≤ -MAX_LATITUDE →
      _getPointer lat lng zoom tileSize = _getPointer (-MAX_LATITUDE) lng zoom tileSize) ∧
    (1 < (normalizedRaw lat lng).1 → normalizedX lat lng ∈ Set.Ico (0 : ℝ) 1) ∧
    ((normalizedRaw lat lng).1 ≤ 1 → normalizedX lat lng = (normalizedRaw lat lng).1) ∧
    (_getPointer lat lng zoom tileSize).tileX = ⌊normalizedX lat lng * 2 ^ zoom⌋ ∧
    (_getPointer lat lng zoom tileSize).tileY =
      ⌊(normalizedRaw lat lng).2 * 2 ^ zoom⌋ ∧
    (_getPointer lat lng zoom tileSize).x =
      Int.fract (normalizedX lat lng * 2 ^ zoom) * tileSize ∧
    (_getPointer lat lng zoom tileSize).y =
      Int.fract ((normalizedRaw lat lng).2 * 2 ^ zoom) * tileSize := by
  have hmax : -MAX_LATITUDE ≤ MAX_LATITUDE := by
    unfold MAX_LATITUDE
    norm_num
  refine ⟨?_, ?_, ?_, ?_, rfl, rfl, rfl, rfl⟩
  · intro h
    have hcl : constrainedLat lat = constrainedLat MAX_LATITUDE := by
      unfold constrainedLat
      rw [min_eq_left h, min_self]
    unfold _getPointer normalizedX normalizedRaw project
    rw [hcl]
  · intro h
    have hcl : constrainedLat lat = constrainedLat (-MAX_LATITUDE) := by
      unfold constrainedLat
      rw [min_eq_right (le_trans h hmax), max_eq_right h, min_eq_right hmax,
        max_self]
    unfold _getPointer normalizedX normalizedRaw project
    rw [hcl]
  · intro h
    unfold normalizedX
    rw [if_pos h]
    exact ⟨by linarith [Int.floor_le ((normalizedRaw lat lng).1)],
      by linarith [Int.lt_floor_add_one ((normalizedRaw lat lng).1)]⟩
  · intro h
    unfold normalizedX
    rw [if_neg (not_lt.mpr h)]

/-- Witness for C5 (amended): a click at latitude 90° projects exactly as
one at the clamp latitude. -/
theorem C5_witness :
    MAX_LATITUDE ≤ 90 ∧
    _getPointer 90 0 0 256 = _getPointer MAX_LATITUDE 0 0 256 := by
  have h : MAX_LATITUDE ≤ 90 := by
    unfold MAX_LATITUDE
    norm_num
  exact ⟨h, (C5_projector 90 0 0 256).1 h⟩

theorem fract_mul_bounds (v ts : ℝ) (h : 0 < ts) :
    0 ≤ (v - ⌊v⌋) * ts ∧ (v - ⌊v⌋) * ts < ts := by
  constructor
  · exact mul_nonneg (by linarith [Int.floor_le v]) h.le
  · calc (v - ⌊v⌋) * ts < 1 * ts :=
          mul_lt_mul_of_pos_right (by linarith [Int.lt_floor_add_one v]) h
      _ = ts := one_mul ts

/-- C10: every pointer produced by `_getPointer` satisfies
`X = tileX·tileSize + x` and `Y = tileY·tileSize + y`, with `tileX`,
`tileY` the integer floors of the zoom-scaled normalized coordinates and
the local coordinates `x`, `y` each in `[0, tileSize)`. -/
theorem C10_pointer_decomposition (lat lng : ℝ) (zoom : ℕ) (tileSize : ℝ)
    (h : 0 < tileSize) :
    (_getPointer lat lng zoom tileSize).X =
      ((_getPointer lat lng zoom tileSize).tileX : ℝ) * tileSize +
        (_getPointer lat lng zoom tileSize).x ∧
    (_getPointer lat lng zoom tileSize).Y =
      ((_getPointer lat lng zoom tileSize).tileY : ℝ) * tileSize +
        (_getPointer lat lng zoom tileSize).y ∧
    (_getPointer lat lng zoom tileSize).tileX = ⌊normalizedX lat lng * 2 ^ zoom⌋ ∧
    (_getPointer lat lng zoom tileSize).tileY =
      ⌊(normalizedRaw lat lng).2 * 2 ^ zoom⌋ ∧
    0 ≤ (_getPointer lat lng zoom tileSize).x ∧
    (_getPointer lat lng zoom tileSize).x < tileSize ∧
    0 ≤ (_getPointer lat lng zoom tileSize).y ∧
    (_getPointer lat lng zoom tileSize).y < tileSize := by
  have hx := fract_mul_bounds (normalizedX lat lng * 2 ^ zoom) tileSize h
  have hy := fract_mul_bounds ((normalizedRaw lat lng).2 * 2 ^ zoom) tileSize h
  exact ⟨rfl, rfl, rfl, rfl, hx.1, hx.2, hy.1, hy.2⟩

/-- Witness for C10: concrete decomposition at the origin with tile size
256. -/
theorem C10_witness :
    (0 : ℝ) < 256 ∧
    (_getPointer 0 0 0 256).X =
      ((_getPointer 0 0 0 256).tileX : ℝ) * 256 + (_getPointer 0 0 0 256).x ∧
    0 ≤ (_getPointer 0 0 0 256).x ∧ (_getPointer 0 0 0 256).x < 256 := by
  have h := C10_pointer_decomposition 0 0 0 256 (by norm_num)
  exact ⟨by norm_num, h.1, h.2.2.2.2.1, h.2.2.2.2.2.1⟩

